import Mathlib

/-!
Verification of the rural-insights CSV-to-analysis pipeline
(`backend/services/csv_processor.py`, `backend/services/ai_analyzer.py`,
`backend/schemas/analysis.py`).

Shallow embedding conventions:
* pandas dataframes become `List` of records; machine floats become `Rat`
  (exact arithmetic; Python `round(x, 2)` is modelled as decimal rounding
  half-to-even at two places);
* `chardet.detect` and the OpenAI completion call are external services and
  are passed in as oracle parameters;
* `datetime.now()` (used only to pick a seasonal label) is passed in as the
  current month number;
* Python string formatting of numbers inside human-readable messages is
  abstracted to `toString`; no claim inspects message text;
* raising an exception is modelled with `Except`.
-/

set_option maxRecDepth 40000

namespace RuralInsights

/-! ## Rounding: Python `round(x, 2)` (round-half-to-even, 2 decimals) -/

/-- Round a rational to the nearest integer, ties to even
(the semantics of Python / numpy `round`). -/
def roundHalfEven (q : Rat) : Int :=
  let f : Int := q.floor
  let r : Rat := q - (f : Rat)
  if r < 1/2 then f
  else if 1/2 < r then f + 1
  else if f % 2 = 0 then f else f + 1

/-- Python `round(x, 2)` from the source, in exact arithmetic. -/
def round2 (q : Rat) : Rat := (roundHalfEven (q * 100) : Rat) / 100

/-! ## Data model (`schemas/analysis.py` and the dataframe rows) -/

/-- A calendar date as parsed by `pd.to_datetime(..., format="%d/%m/%Y")`. -/
structure MDate where
  year : Nat
  month : Nat
  day : Nat
deriving DecidableEq, Inhabited

/-- The year-month key `df["data"].dt.to_period("M")` used for grouping. -/
def monthKey (d : MDate) : Nat := d.year * 12 + d.month

/-- A linear key on dates (day < 32), used for `min` / `max` over dates. -/
def dateKey (d : MDate) : Nat := monthKey d * 32 + d.day

/-- One raw CSV row after `pd.read_csv` plus the columnwise conversions of
`_prepare_dataframe` (`pd.to_numeric(..., errors="coerce")`,
`pd.to_datetime(..., errors="coerce")`): a `none` field is a `NaN`/`NaT`,
i.e. a failed parse or a missing cell. -/
structure RawRow where
  descricao : Option String
  valor : Option Rat
  data : Option MDate
  operacao : Option String
  realizado : Option String
deriving DecidableEq

/-- A row that survived `dropna(subset=["valor", "data", "descricao"])`. -/
structure Record where
  descricao : String
  valor : Rat
  data : MDate
  operacao : Option String
  realizado : Option String
deriving DecidableEq

/-- Model of `.str.strip().str.upper()` (whitespace strip at both ends, then ASCII
case map; the inputs relevant to the claims are already upper-cased where
non-ASCII).  Implemented over the character list so that it evaluates. -/
def normStr (s : String) : String :=
  String.mk ((((s.data.dropWhile Char.isWhitespace).reverse.dropWhile
    Char.isWhitespace).reverse).map Char.toUpper)

/-- The fate of a single row in `_prepare_dataframe`: absolute value of the
amount, then `dropna` on amount/date/description, then string
normalization of the three text columns. -/
def prepareRow (r : RawRow) : Option Record :=
  match r.valor, r.data, r.descricao with
  | some v, some d, some desc =>
      some { descricao := normStr desc
             valor := |v|
             data := d
             operacao := r.operacao.map normStr
             realizado := r.realizado.map normStr }
  | _, _, _ => none

/-- Model of `_prepare_dataframe` over the whole frame. -/
def prepareDataframe (rows : List RawRow) : List Record :=
  rows.filterMap prepareRow

/-- The filter `df[(df["operacao"] == "SAÍDA") & (df["realizado"] == "SIM")]`. -/
def filterSaidas (recs : List Record) : List Record :=
  recs.filter (fun r => r.operacao == some "SAÍDA" && r.realizado == some "SIM")

/-! ## Group-by plumbing -/

/-- Helper for `uniqueInOrder`: keep the values not seen yet. -/
def uniqueAux {α : Type} [DecidableEq α] (seen : List α) : List α → List α
  | [] => []
  | x :: xs => if x ∈ seen then uniqueAux seen xs else x :: uniqueAux (seen ++ [x]) xs

/-- Distinct values in order of first appearance (pandas `Series.unique`). -/
def uniqueInOrder {α : Type} [DecidableEq α] (l : List α) : List α :=
  uniqueAux [] l

/-- Stable insertion into a sorted list (used to model the stable sorts of
the source: Python `sorted` is stable, and where pandas leaves the order
of ties unspecified the model fixes the stable order). -/
def insertSorted {α : Type} (le : α → α → Bool) (x : α) : List α → List α
  | [] => [x]
  | y :: ys => if le x y then x :: y :: ys else y :: insertSorted le x ys

/-- Stable sort by a boolean comparison. -/
def sortBy {α : Type} (le : α → α → Bool) : List α → List α
  | [] => []
  | x :: xs => insertSorted le x (sortBy le xs)

/-- Ascending sort on `Nat` keys (pandas `groupby` sorts its keys). -/
def sortNatAsc (l : List Nat) : List Nat :=
  sortBy (fun a b => decide (a ≤ b)) l

/-- Lexicographic comparison on code points (the string order pandas uses
for its keys), implemented so that it evaluates. -/
def charListLt : List Char → List Char → Bool
  | [], [] => false
  | [], _ :: _ => true
  | _ :: _, [] => false
  | c :: cs, d :: ds =>
    if c.toNat < d.toNat then true
    else if d.toNat < c.toNat then false
    else charListLt cs ds

/-- Ascending sort on `String` keys (pandas `groupby` sorts its keys). -/
def sortStrAsc (l : List String) : List String :=
  sortBy (fun a b => !(charListLt b.data a.data)) l

/-- The rows of one category (`df[df["descricao"] == categoria]`). -/
def catRecords (recs : List Record) (cat : String) : List Record :=
  recs.filter (fun r => r.descricao == cat)

/-- The amounts of one category. -/
def catValores (recs : List Record) (cat : String) : List Rat :=
  (catRecords recs cat).map (·.valor)

/-- The month keys (with multiplicity) of one category's rows. -/
def monthsOf (recs : List Record) (cat : String) : List Nat :=
  (catRecords recs cat).map (fun r => monthKey r.data)

/-- The sum of one category's amounts within one month
(one entry of `df_cat.groupby("mes")["valor"].sum()`). -/
def monthSum (recs : List Record) (cat : String) (k : Nat) : Rat :=
  (((catRecords recs cat).filter (fun r => monthKey r.data == k)).map (·.valor)).sum

/-- Model of `df_cat.groupby("mes")["valor"].sum()`: per-month sums, months ascending. -/
def monthlySums (recs : List Record) (cat : String) : List Rat :=
  (sortNatAsc (uniqueInOrder (monthsOf recs cat))).map (monthSum recs cat)

/-! ## Aggregator (`_calculate_monthly_variation`, `_calculate_top_categories`,
`_calculate_monthly_evolution`, `_get_periodo`) -/

/-- Model of `_calculate_monthly_variation`: percent change between the last two
months with data, `None` below two months or on a zero prior month. -/
def calcMonthlyVariation (recs : List Record) (cat : String) : Option Rat :=
  let monthly := monthlySums recs cat
  if monthly.length < 2 then none
  else
    let ultimoMes := monthly.getD (monthly.length - 1) 0
    let penultimoMes := monthly.getD (monthly.length - 2) 0
    if penultimoMes = 0 then none
    else some (round2 ((ultimoMes - penultimoMes) / penultimoMes * 100))

/-- One row of `schemas.analysis.TopCategory`. -/
structure TopCategory where
  nome : String
  valor : Rat
  percentual : Rat
  transacoes : Nat
  media_por_transacao : Rat
  variacao_mensal : Option Rat
deriving DecidableEq

/-- One row of the intermediate `categoria_stats` frame
(`groupby("descricao").agg(sum/count/mean).round(2)`). -/
structure CatStat where
  nome : String
  total : Rat
  count : Nat
  mean : Rat
deriving DecidableEq

/-- The `categoria_stats` frame: per-category sum/count/mean, each rounded
to two decimals, keys in the groupby (ascending) order. -/
def catStats (recs : List Record) : List CatStat :=
  (sortStrAsc (uniqueInOrder (recs.map (·.descricao)))).map (fun c =>
    let vals := catValores recs c
    { nome := c
      total := round2 vals.sum
      count := vals.length
      mean := round2 (vals.sum / (vals.length : Rat)) })

/-- Model of `_calculate_top_categories`: sort descending by total, keep 5, attach
percent-of-total and monthly variation.  The source leaves the order of
equal totals unspecified (pandas `sort_values` quicksort); the model uses
the stable order. -/
def calcTopCategories (recs : List Record) (totalGasto : Rat) : List TopCategory :=
  ((sortBy (fun a b => decide (b.total ≤ a.total)) (catStats recs)).take 5).map
    (fun s =>
      { nome := s.nome
        valor := s.total
        percentual := round2 (s.total / totalGasto * 100)
        transacoes := s.count
        media_por_transacao := s.mean
        variacao_mensal := calcMonthlyVariation recs s.nome })

/-- One row of `schemas.analysis.MonthlyEvolution` (the `str(Period)` month
label is abstracted to the month key). -/
structure MonthlyEvolution where
  mes : Nat
  valor : Rat
  transacoes : Nat
deriving DecidableEq

/-- Model of `_calculate_monthly_evolution`: for each of the 5 largest categories,
the ordered per-month sums and counts. -/
def calcMonthlyEvolution (recs : List Record) :
    List (String × List MonthlyEvolution) :=
  let sums := (sortStrAsc (uniqueInOrder (recs.map (·.descricao)))).map
    (fun c => (c, (catValores recs c).sum))
  let topCats := ((sortBy (fun a b => decide (b.2 ≤ a.2)) sums).take 5).map (·.1)
  topCats.map (fun c =>
    (c, (sortNatAsc (uniqueInOrder (monthsOf recs c))).map (fun k =>
      { mes := k
        valor := monthSum recs c k
        transacoes := ((catRecords recs c).filter
          (fun r => monthKey r.data == k)).length })))

/-- Model of `_get_periodo`: min and max date of the filtered frame. -/
def getPeriodo (recs : List Record) : MDate × MDate :=
  match recs with
  | [] => (⟨0, 0, 0⟩, ⟨0, 0, 0⟩)
  | r :: rest =>
      (rest.foldl (fun acc x => if dateKey x.data < dateKey acc then x.data else acc) r.data,
       rest.foldl (fun acc x => if dateKey acc < dateKey x.data then x.data else acc) r.data)

/-! ## Alert engine (`_generate_alerts`) -/

inductive AlertType where
  | urgent
  | warning
  | info
deriving DecidableEq

/-- Model of `schemas.analysis.Alert`. -/
structure Alert where
  tipo : AlertType
  categoria : String
  mensagem : String
  impacto_estimado : Option Rat
  acao_sugerida : Option String
deriving DecidableEq

/-- The sorting key `x.impacto_estimado or 0` of `_generate_alerts`
(Python treats both `None` and `0.0` as falsy; both map to `0`). -/
def alertKey (a : Alert) : Rat := a.impacto_estimado.getD 0

/-- The URGENT alert built for a high-variation top category. -/
def urgentAlertOf (cat : TopCategory) (v : Rat) : Alert :=
  { tipo := .urgent
    categoria := cat.nome
    mensagem := cat.nome ++ " aumentou " ++ toString v ++ "% no último mês"
    impacto_estimado := some (cat.valor * (v / 100))
    acao_sugerida := some "Revisar fornecedores e buscar alternativas mais econômicas" }

/-- First pass: `cat.variacao_mensal and cat.variacao_mensal > 30`
(`0.0` is falsy in Python, but `0 > 30` already fails, so the guard is
exactly `> 30` on a present variation). -/
def urgentAlerts (topCats : List TopCategory) : List Alert :=
  topCats.filterMap (fun cat =>
    match cat.variacao_mensal with
    | some v => if 30 < v then some (urgentAlertOf cat v) else none
    | none => none)

/-- The WARNING alert built for a high-concentration top category. -/
def concentrationAlertOf (cat : TopCategory) : Alert :=
  { tipo := .warning
    categoria := cat.nome
    mensagem := cat.nome ++ " representa " ++ toString cat.percentual ++ "% dos gastos totais"
    impacto_estimado := some (cat.valor * (1/10))
    acao_sugerida := some "Considerar estratégias de redução ou negociação em volume" }

/-- Second pass: `cat.percentual > 25`. -/
def concentrationAlerts (topCats : List TopCategory) : List Alert :=
  topCats.filterMap (fun cat =>
    if 25 < cat.percentual then some (concentrationAlertOf cat) else none)

/-- Model of `Series.quantile(q)` with the default linear interpolation, on the
sorted values. -/
def quantile (vals : List Rat) (q : Rat) : Rat :=
  let s := sortBy (fun a b => decide (a ≤ b)) vals
  let h : Rat := q * ((s.length : Rat) - 1)
  let i : Nat := h.floor.toNat
  let xi := s.getD i 0
  let xi1 := s.getD (i + 1) xi
  xi + (h - (i : Rat)) * (xi1 - xi)

/-- The IQR upper fence `Q3 + 1.5 * (Q3 - Q1)` of a value list. -/
def upperBound (vals : List Rat) : Rat :=
  let q1 := quantile vals (1/4)
  let q3 := quantile vals (3/4)
  q3 + (3/2) * (q3 - q1)

/-- The values strictly above the fence (`df_cat[df_cat["valor"] > upper_bound]`). -/
def outliersOf (vals : List Rat) : List Rat :=
  vals.filter (fun v => decide (upperBound vals < v))

/-- The INFO alert built from a category's outliers. -/
def outlierAlertOf (cat : String) (outliers : List Rat) : Alert :=
  { tipo := .info
    categoria := cat
    mensagem := "Detectadas " ++ toString outliers.length ++ " transações atípicas em " ++ cat
    impacto_estimado := some (outliers.sum - outliers.sum / (outliers.length : Rat) * (outliers.length : Rat))
    acao_sugerida := some "Verificar se foram compras emergenciais ou erros de lançamento" }

/-- The outlier check of one category: at least 4 transactions and a
non-empty outlier set produce the INFO alert. -/
def outlierAlertFor (recs : List Record) (c : String) : Option Alert :=
  let vals := catValores recs c
  if 4 ≤ vals.length then
    let outliers := outliersOf vals
    if outliers.isEmpty then none else some (outlierAlertOf c outliers)
  else none

/-- Third pass: IQR outlier detection over every category of the frame
(`df["descricao"].unique()`), needing at least 4 transactions. -/
def outlierAlerts (recs : List Record) : List Alert :=
  (uniqueInOrder (recs.map (·.descricao))).filterMap (outlierAlertFor recs)

/-- The comparison used to rank alerts: descending on `impacto_estimado or 0`. -/
def alertLe (a b : Alert) : Bool := decide (alertKey b ≤ alertKey a)

/-- Model of `sorted(alerts, key=lambda x: x.impacto_estimado or 0, reverse=True)[:10]`
(Python `sorted` is stable, and so is the model's sort). -/
def generateAlerts (recs : List Record) (topCats : List TopCategory) : List Alert :=
  (sortBy alertLe
    (urgentAlerts topCats ++ concentrationAlerts topCats ++ outlierAlerts recs)).take 10

/-! ## Insight enrichment client (`ai_analyzer.py`) -/

/-- One item of `insights_principais`; every key is optional on the AI
path (`insight.get(...)` in `process_csv`). -/
structure InsightItem where
  categoria : Option String
  tipo : Option String
  mensagem : Option String
  valor_impacto : Option Rat
  acao_recomendada : Option String
  prazo_sugerido : Option String
deriving DecidableEq

/-- One item of `analise_categorias`. -/
structure CategoryAnalysis where
  categoria : String
  status : String
  analise : String
  benchmark : String
  sugestao : String
deriving DecidableEq

/-- One item of `oportunidades_economia`. -/
structure SavingsOpportunity where
  descricao : String
  economia_estimada : Rat
  como_implementar : String
  complexidade : String
deriving DecidableEq

/-- One item of `recomendacoes_sazonais`. -/
structure SeasonalRec where
  recomendacao : String
  justificativa : String
  impacto_esperado : String
deriving DecidableEq

/-- Model of `score_insights`. -/
structure ScoreInsights where
  relevancia : Nat
  especificidade : Nat
  acionabilidade : Nat
deriving DecidableEq

/-- A successfully parsed JSON reply from the external service, before
`_validate_insights`: any of the expected keys may be missing. -/
structure RawInsights where
  insights_principais : Option (List InsightItem)
  analise_categorias : Option (List CategoryAnalysis)
  oportunidades_economia : Option (List SavingsOpportunity)
  recomendacoes_sazonais : Option (List SeasonalRec)
  score_insights : Option ScoreInsights

/-- The insights dict as returned by `analyze_financial_data`.
`fallbackMarker` models the presence of the `"_fallback": True` key
(absent, i.e. `false`, on the AI-derived path). -/
structure Insights where
  insights_principais : List InsightItem
  analise_categorias : List CategoryAnalysis
  oportunidades_economia : List SavingsOpportunity
  recomendacoes_sazonais : List SeasonalRec
  score_insights : Option ScoreInsights
  fallbackMarker : Bool

/-- Model of `_validate_insights`: default every missing required key to `[]`, then
truncate the four lists to 5/5/3/3 items. -/
def validateInsights (r : RawInsights) : Insights :=
  { insights_principais := (r.insights_principais.getD []).take 5
    analise_categorias := (r.analise_categorias.getD []).take 5
    oportunidades_economia := (r.oportunidades_economia.getD []).take 3
    recomendacoes_sazonais := (r.recomendacoes_sazonais.getD []).take 3
    score_insights := r.score_insights
    fallbackMarker := false }

/-- Model of `_get_epoca_agricola`, on the current month number. -/
def getEpocaAgricola (month : Nat) : String :=
  if month = 10 ∨ month = 11 ∨ month = 12 ∨ month = 1 then "Plantio (safra de verão)"
  else if month = 2 ∨ month = 3 ∨ month = 4 then "Desenvolvimento/Tratos culturais"
  else if month = 5 ∨ month = 6 ∨ month = 7 then "Colheita/Entressafra"
  else "Preparo do solo/Planejamento"

/-- The guard `cat.variacao_mensal and cat.variacao_mensal > 20` of the
fallback path (Python falsiness of `0.0` is subsumed by `0 > 20` failing). -/
def fallbackVariationHigh (cat : TopCategory) : Bool :=
  match cat.variacao_mensal with
  | some v => decide (20 < v)
  | none => false

/-- Model of `_get_fallback_insights`: locally synthesized insights used after all
retries fail.  `existingAlerts` is accepted but unused, as in the source. -/
def getFallbackInsights (topCats : List TopCategory) (existingAlerts : List Alert)
    (nowMonth : Nat) : Insights :=
  let _ := existingAlerts
  { insights_principais := (topCats.take 3).filterMap (fun cat =>
      if fallbackVariationHigh cat then
        some { categoria := some cat.nome
               tipo := some "alerta"
               mensagem := some (cat.nome ++ " aumentou "
                 ++ toString (cat.variacao_mensal.getD 0) ++ "% no último mês")
               valor_impacto := some (cat.valor * (1/10))
               acao_recomendada := some "Revisar fornecedores e negociar preços"
               prazo_sugerido := some "imediato" }
      else if (30 : Rat) < cat.percentual then
        some { categoria := some cat.nome
               tipo := some "economia"
               mensagem := some (cat.nome ++ " representa "
                 ++ toString cat.percentual ++ "% dos gastos totais")
               valor_impacto := some (cat.valor * (15/100))
               acao_recomendada := some "Buscar alternativas ou compras em conjunto"
               prazo_sugerido := some "30 dias" }
      else none)
    analise_categorias := (topCats.take 3).map (fun cat =>
      { categoria := cat.nome
        status := if (25 : Rat) < cat.percentual then "atencao" else "normal"
        analise := "Categoria com " ++ toString cat.transacoes ++ " transações"
        benchmark := "Análise de benchmark indisponível"
        sugestao := "Monitore os gastos desta categoria" })
    oportunidades_economia :=
      [{ descricao := "Negociação com fornecedores principais"
         economia_estimada := ((topCats.take 3).map (fun cat => cat.valor * (1/10))).sum
         como_implementar := "Entre em contato com fornecedores para renegociar"
         complexidade := "facil" }]
    recomendacoes_sazonais :=
      [{ recomendacao := "Planeje compras para " ++ getEpocaAgricola nowMonth
         justificativa := "Melhor momento para negociar preços"
         impacto_esperado := "Redução de 5-10% nos custos" }]
    score_insights := some { relevancia := 7, especificidade := 6, acionabilidade := 8 }
    fallbackMarker := true }

/-- Model of `analyze_financial_data`: up to `max_retries = 3` attempts against the
external service; attempt `i` is the oracle value `aᵢ` (`none` models any
exception: timeout, malformed JSON, transport error).  A successful reply
is validated; after the third failure the local fallback is returned.
The function is total: the retry loop catches every exception. -/
def analyzeFinancialData (a0 a1 a2 : Option RawInsights)
    (topCats : List TopCategory) (existingAlerts : List Alert)
    (nowMonth : Nat) : Insights :=
  match a0 with
  | some r => validateInsights r
  | none =>
    match a1 with
    | some r => validateInsights r
    | none =>
      match a2 with
      | some r => validateInsights r
      | none => getFallbackInsights topCats existingAlerts nowMonth

/-! ## The pipeline (`process_csv`) -/

/-- Model of `schemas.analysis.AnalysisResponse`. -/
structure AnalysisResponse where
  total_gasto : Rat
  numero_transacoes : Nat
  periodo_analise : MDate × MDate
  top_categorias : List TopCategory
  evolucao_mensal : List (String × List MonthlyEvolution)
  alertas : List Alert
  resumo_executivo : String
deriving Inhabited

/-- Model of `_generate_executive_summary` (money formatting abstracted to `toString`). -/
def generateExecutiveSummary (totalGasto : Rat) (numTransacoes : Nat)
    (topCats : List TopCategory) (alerts : List Alert) : String :=
  let base := "No período analisado, foram registradas " ++ toString numTransacoes
    ++ " transações totalizando R$ " ++ toString totalGasto ++ " em gastos. "
  let s1 :=
    match topCats with
    | [] => base
    | topCat :: _ => base ++ "A categoria \x27" ++ topCat.nome
        ++ "\x27 foi a maior despesa, representando " ++ toString topCat.percentual
        ++ "% do total. "
  let urgentCount := (alerts.filter (fun a => a.tipo == .urgent)).length
  let s2 :=
    if urgentCount ≠ 0 then
      s1 ++ "Foram identificados " ++ toString urgentCount
        ++ " alertas urgentes que requerem atenção imediata. "
    else s1
  let potentialSavings := (alerts.map alertKey).sum
  if 0 < potentialSavings then
    s2 ++ "As oportunidades de economia identificadas podem gerar uma redução de até R$ "
      ++ toString potentialSavings ++ " nos gastos."
  else s2

/-- The INFO alert appended in `process_csv` for one AI insight. -/
def insightAlertOf (ins : InsightItem) : Alert :=
  { tipo := .info
    categoria := ins.categoria.getD "Geral"
    mensagem := ins.mensagem.getD ""
    impacto_estimado := ins.valor_impacto
    acao_sugerida := ins.acao_recomendada }

/-- Model of `process_csv`, from the already-parsed rows onward (the byte-decoding
and `pd.read_csv` steps precede this model; line 53 of the source).
Raising `ValueError` is the `Except.error` branch.  The enrichment step
never raises (see `analyzeFinancialData`), and its insights are appended
to the alert list as INFO alerts; the dict returned by
`analyze_financial_data` always carries the `insights_principais` key,
so the `if ai_insights and "insights_principais" in ai_insights` guard of
the source always holds. -/
def processCsv (rows : List RawRow) (a0 a1 a2 : Option RawInsights)
    (nowMonth : Nat) : Except String AnalysisResponse :=
  let df := prepareDataframe rows
  let dfSaidas := filterSaidas df
  if dfSaidas.isEmpty then
    .error "Nenhuma transação de saída encontrada no arquivo"
  else
    let totalGasto := (dfSaidas.map (·.valor)).sum
    let numTransacoes := dfSaidas.length
    let periodo := getPeriodo dfSaidas
    let topCategorias := calcTopCategories dfSaidas totalGasto
    let evolucaoMensal := calcMonthlyEvolution dfSaidas
    let alertas := generateAlerts dfSaidas topCategorias
    let resumo := generateExecutiveSummary totalGasto numTransacoes topCategorias alertas
    let aiInsights := analyzeFinancialData a0 a1 a2 topCategorias alertas nowMonth
    let alertasFinal := alertas ++ (aiInsights.insights_principais.take 3).map insightAlertOf
    let resumoFinal :=
      if !aiInsights.fallbackMarker then
        resumo ++ " Análise enriquecida com inteligência artificial."
      else resumo
    .ok { total_gasto := totalGasto
          numero_transacoes := numTransacoes
          periodo_analise := periodo
          top_categorias := topCategorias
          evolucao_mensal := evolucaoMensal
          alertas := alertasFinal
          resumo_executivo := resumoFinal }

/-! ## Encoding detector (`detect_encoding`) -/

/-- The candidate list `self.encoding_options`. -/
def encodingOptions : List String := ["utf-8", "latin1", "iso-8859-1", "cp1252"]

/-- The fallback probe: first candidate that decodes the whole buffer,
else the safe default.  `decodes e` models `file_content.decode(e)`
succeeding. -/
def fallbackEncoding (decodes : String → Bool) : String :=
  match encodingOptions.find? decodes with
  | some enc => enc
  | none => "latin1"

/-- Model of `detect_encoding`.  `chardetResult` is the oracle for
`chardet.detect(file_content[:10000])`: `none` models the call raising
(caught by the source), `some (e, c)` a detection of encoding `e` with
confidence `c`. -/
def detectEncoding (chardetResult : Option (String × Rat))
    (decodes : String → Bool) : String :=
  match chardetResult with
  | some r => if 7/10 < r.2 then r.1 else fallbackEncoding decodes
  | none => fallbackEncoding decodes

/-! ## Spec-side notions for the month-over-month variation claim -/

/-- The number of distinct months a category has data in. -/
def distinctMonthCount (recs : List Record) (cat : String) : Nat :=
  (uniqueInOrder (monthsOf recs cat)).length

/-- The latest (largest) month key of a category. -/
def latestMonth (recs : List Record) (cat : String) : Nat :=
  (monthsOf recs cat).foldl max 0

/-- The month immediately preceding the latest among the category's months
with data (the largest month key distinct from the latest). -/
def priorMonth (recs : List Record) (cat : String) : Nat :=
  (((monthsOf recs cat).filter (fun m => !(m == latestMonth recs cat)))).foldl max 0

/-! ## Concrete inputs used by counterexamples and witnesses -/

/-- A well-formed OUTFLOW/executed row. -/
def mkRow (desc : String) (v : Rat) (y m d : Nat) : RawRow :=
  { descricao := some desc
    valor := some v
    data := some ⟨y, m, d⟩
    operacao := some "SAÍDA"
    realizado := some "SIM" }

/-- The concrete scenario of the spec: two COMBUSTÍVEL outflows,
`-150.00` on 15/01/2024 and `200.00` on 15/02/2024. -/
def c6rows : List RawRow := [mkRow "COMBUSTÍVEL" (-150) 2024 1 15, mkRow "COMBUSTÍVEL" 200 2024 2 15]

def c6recs : List Record := filterSaidas (prepareDataframe c6rows)

def c6total : Rat := (c6recs.map (·.valor)).sum

/-- The top category computed from `c6rows`. -/
def c6cat : TopCategory :=
  { nome := "COMBUSTÍVEL"
    valor := 350
    percentual := 100
    transacoes := 2
    media_por_transacao := 175
    variacao_mensal := some (3333/100) }

/-- Input for the ordering counterexample: one category, two equal January
outflows — its single WARNING alert has impact 20, while the fallback
insight appended by `process_csv` carries impact 30. -/
def c1rows : List RawRow := [mkRow "ADUBO" 100 2024 1 10, mkRow "ADUBO" 100 2024 1 20]

/-- Input for the exact-percentage counterexample: totals 1 and 2, so the
grand total is 3 and the percentages 1/3 and 2/3 are not 2-decimal. -/
def c8rows : List RawRow := [mkRow "A" 1 2024 1 10, mkRow "B" 2 2024 1 11]

def c8recs : List Record := filterSaidas (prepareDataframe c8rows)

def c8total : Rat := (c8recs.map (·.valor)).sum

/-- The outlier scenario of the spec: one category with 4 transactions
valued 10, 10, 10, 1000. -/
def c7rows : List RawRow :=
  [mkRow "GADO" 10 2024 1 5, mkRow "GADO" 10 2024 1 12,
   mkRow "GADO" 10 2024 1 19, mkRow "GADO" 1000 2024 1 26]

def c7recs : List Record := filterSaidas (prepareDataframe c7rows)

/-- A row filtered out of the analysis (an INFLOW). -/
def c3rowEntrada : RawRow :=
  { descricao := some "VENDA"
    valor := some 50
    data := some ⟨2024, 1, 3⟩
    operacao := some "ENTRADA"
    realizado := some "SIM" }

/-- The report produced by `process_csv` on `c1rows` with a failing
enrichment service. -/
def c1rep : AnalysisResponse :=
  (processCsv c1rows none none none 1).toOption.getD default

/-- A row whose date failed to parse. -/
def c4badRow : RawRow :=
  { descricao := some "SEMENTE"
    valor := some (-5)
    data := none
    operacao := some "SAÍDA"
    realizado := some "SIM" }

/-- A row with a negative parsed amount. -/
def c4goodRow : RawRow := mkRow "SEMENTE" (-5) 2024 3 1

/-- The record `_prepare_dataframe` keeps for `c4goodRow`. -/
def c4keptRec : Record :=
  { descricao := "SEMENTE"
    valor := 5
    data := ⟨2024, 3, 1⟩
    operacao := some "SAÍDA"
    realizado := some "SIM" }

/-- The first top category computed from `c8rows`. -/
def c8catB : TopCategory :=
  { nome := "B"
    valor := 2
    percentual := 6667/100
    transacoes := 1
    media_por_transacao := 2
    variacao_mensal := none }

/-! # Lemmas about the model's plumbing -/

/-! ## The stable sort -/

theorem perm_insertSorted {α : Type} (le : α → α → Bool) (x : α) (l : List α) :
    List.Perm (insertSorted le x l) (x :: l) := by
  induction l with
  | nil => exact List.Perm.refl _
  | cons y ys ih =>
    simp only [insertSorted]
    split
    · exact List.Perm.refl _
    · exact (List.Perm.cons y ih).trans (List.Perm.swap x y ys)

theorem perm_sortBy {α : Type} (le : α → α → Bool) (l : List α) :
    List.Perm (sortBy le l) l := by
  induction l with
  | nil => exact List.Perm.refl _
  | cons x xs ih => exact (perm_insertSorted le x (sortBy le xs)).trans (List.Perm.cons x ih)

theorem mem_sortBy {α : Type} {le : α → α → Bool} {l : List α} {a : α} :
    a ∈ sortBy le l ↔ a ∈ l :=
  (perm_sortBy le l).mem_iff

theorem pairwise_insertSorted {α : Type} {le : α → α → Bool}
    (htrans : ∀ a b c, le a b = true → le b c = true → le a c = true)
    (htotal : ∀ a b, le a b = true ∨ le b a = true)
    (x : α) (l : List α) (h : l.Pairwise (fun a b => le a b = true)) :
    (insertSorted le x l).Pairwise (fun a b => le a b = true) := by
  induction l with
  | nil => simp [insertSorted]
  | cons y ys ih =>
    rcases List.pairwise_cons.mp h with ⟨hy, hys⟩
    simp only [insertSorted]
    split
    case isTrue hxy =>
      refine List.pairwise_cons.mpr ⟨?_, h⟩
      intro z hz
      rcases List.mem_cons.mp hz with rfl | hz
      · exact hxy
      · exact htrans _ _ _ hxy (hy z hz)
    case isFalse hxy =>
      have hyx : le y x = true := (htotal x y).resolve_left hxy
      refine List.pairwise_cons.mpr ⟨?_, ih hys⟩
      intro z hz
      rcases List.mem_cons.mp ((perm_insertSorted le x ys).mem_iff.mp hz) with rfl | hz2
      · exact hyx
      · exact hy z hz2

theorem pairwise_sortBy {α : Type} {le : α → α → Bool}
    (htrans : ∀ a b c, le a b = true → le b c = true → le a c = true)
    (htotal : ∀ a b, le a b = true ∨ le b a = true)
    (l : List α) : (sortBy le l).Pairwise (fun a b => le a b = true) := by
  induction l with
  | nil => simp [sortBy]
  | cons x xs ih => exact pairwise_insertSorted htrans htotal x _ ih

/-! ## `uniqueInOrder` -/

theorem mem_uniqueAux {α : Type} [DecidableEq α] (l : List α) :
    ∀ (seen : List α) (a : α), a ∈ uniqueAux seen l ↔ a ∈ l ∧ a ∉ seen := by
  induction l with
  | nil => intro seen a; simp [uniqueAux]
  | cons x xs ih =>
    intro seen a
    simp only [uniqueAux]
    split
    case isTrue hx =>
      rw [ih]
      constructor
      · rintro ⟨h1, h2⟩
        exact ⟨List.mem_cons_of_mem _ h1, h2⟩
      · rintro ⟨h1, h2⟩
        rcases List.mem_cons.mp h1 with rfl | h1
        · exact absurd hx h2
        · exact ⟨h1, h2⟩
    case isFalse hx =>
      constructor
      · intro h
        rcases List.mem_cons.mp h with rfl | h
        · exact ⟨List.mem_cons_self _ _, hx⟩
        · rcases (ih _ _).mp h with ⟨h1, h2⟩
          rw [List.mem_append] at h2
          push_neg at h2
          exact ⟨List.mem_cons_of_mem _ h1, h2.1⟩
      · rintro ⟨h1, h2⟩
        rcases List.mem_cons.mp h1 with rfl | h1
        · exact List.mem_cons_self _ _
        · by_cases hax : a = x
          · subst hax
            exact List.mem_cons_self _ _
          · refine List.mem_cons_of_mem _ ((ih _ _).mpr ⟨h1, ?_⟩)
            rw [List.mem_append]
            push_neg
            exact ⟨h2, by simpa using hax⟩

theorem nodup_uniqueAux {α : Type} [DecidableEq α] (l : List α) :
    ∀ seen : List α, (uniqueAux seen l).Nodup := by
  induction l with
  | nil => intro seen; simp [uniqueAux]
  | cons x xs ih =>
    intro seen
    simp only [uniqueAux]
    split
    · exact ih _
    · refine List.nodup_cons.mpr ⟨?_, ih _⟩
      intro hmem
      rcases (mem_uniqueAux _ _ _).mp hmem with ⟨_, h2⟩
      rw [List.mem_append] at h2
      push_neg at h2
      exact absurd (List.mem_singleton.mpr rfl) h2.2

theorem mem_uniqueInOrder {α : Type} [DecidableEq α] {l : List α} {a : α} :
    a ∈ uniqueInOrder l ↔ a ∈ l := by
  simp [uniqueInOrder, mem_uniqueAux]

theorem nodup_uniqueInOrder {α : Type} [DecidableEq α] (l : List α) :
    (uniqueInOrder l).Nodup :=
  nodup_uniqueAux l []

/-! ## `foldl max` -/

theorem le_foldl_max (l : List Nat) (a : Nat) : a ≤ l.foldl max a := by
  induction l generalizing a with
  | nil => exact Nat.le_refl a
  | cons x xs ih => exact le_trans (Nat.le_max_left a x) (ih (max a x))

theorem mem_le_foldl_max {x : Nat} (l : List Nat) (hx : x ∈ l) :
    ∀ a : Nat, x ≤ l.foldl max a := by
  induction l with
  | nil => cases hx
  | cons y ys ih =>
    intro a
    rcases List.mem_cons.mp hx with rfl | h
    · exact le_trans (Nat.le_max_right a x) (le_foldl_max ys (max a x))
    · exact ih h (max a y)

theorem foldl_max_le {b : Nat} :
    ∀ (l : List Nat) (a : Nat), a ≤ b → (∀ x ∈ l, x ≤ b) → l.foldl max a ≤ b
  | [], _, ha, _ => ha
  | y :: ys, a, ha, h => by
    simp only [List.foldl_cons]
    exact foldl_max_le ys (max a y)
      (Nat.max_le.mpr ⟨ha, h y (List.mem_cons_self y ys)⟩)
      (fun x hx => h x (List.mem_cons_of_mem _ hx))

theorem foldl_max_eq {l : List Nat} {p : Nat} (hmem : p ∈ l) (hub : ∀ x ∈ l, x ≤ p) :
    l.foldl max 0 = p :=
  le_antisymm (foldl_max_le l 0 (Nat.zero_le p) hub) (mem_le_foldl_max l hmem 0)

/-! ## The alert ranking -/

theorem alertLe_trans (a b c : Alert) (h1 : alertLe a b = true) (h2 : alertLe b c = true) :
    alertLe a c = true := by
  simp only [alertLe, decide_eq_true_eq] at h1 h2 ⊢
  exact le_trans h2 h1

theorem alertLe_total (a b : Alert) : alertLe a b = true ∨ alertLe b a = true := by
  simp only [alertLe, decide_eq_true_eq]
  exact le_total (alertKey b) (alertKey a)

/-- The published alerts are in descending order of estimated impact
(`None` counted as 0). -/
theorem pairwise_generateAlerts (recs : List Record) (topCats : List TopCategory) :
    (generateAlerts recs topCats).Pairwise (fun a b => alertKey b ≤ alertKey a) := by
  unfold generateAlerts
  refine List.Pairwise.sublist (List.take_sublist _ _) ?_
  exact (pairwise_sortBy alertLe_trans alertLe_total _).imp
    (fun h => by simpa [alertLe] using h)

theorem length_generateAlerts_le (recs : List Record) (topCats : List TopCategory) :
    (generateAlerts recs topCats).length ≤ 10 := by
  unfold generateAlerts
  exact List.length_take_le _ _

theorem mem_generateAlerts {recs : List Record} {topCats : List TopCategory} {a : Alert}
    (h : a ∈ generateAlerts recs topCats) :
    a ∈ urgentAlerts topCats ∨ a ∈ concentrationAlerts topCats ∨ a ∈ outlierAlerts recs := by
  unfold generateAlerts at h
  have h2 := mem_sortBy.mp (List.mem_of_mem_take h)
  simpa using h2

/-! # The claims -/

/- Batteries marks the rational operations `@[irreducible]`; the concrete
evaluations below need them reducible. -/
set_option allowUnsafeReducibility true
attribute [local semireducible] Rat.add Rat.sub Rat.mul Rat.inv

/-- Claim C1 (amended).  The alert list produced by the alert engine
(`_generate_alerts`) has length at most 10 and is sorted in descending
order of estimated impact with `None` treated as 0.  The claim as stated
— about the *final* report of `process_csv` — is false
(`alerts_order_cex`): `process_csv` appends up to 3 AI/fallback insight
alerts *after* the sort-and-truncate, so the final list is only bounded
by 13 and its tail may break the ordering. -/
theorem alerts_cap_and_order (recs : List Record) (topCats : List TopCategory)
    (rows : List RawRow) (a0 a1 a2 : Option RawInsights) (nowMonth : Nat)
    (rep : AnalysisResponse) (hrep : processCsv rows a0 a1 a2 nowMonth = .ok rep) :
    (generateAlerts recs topCats).length ≤ 10
    ∧ (generateAlerts recs topCats).Pairwise (fun a b => alertKey b ≤ alertKey a)
    ∧ rep.alertas.length ≤ 13 := by
  refine ⟨length_generateAlerts_le recs topCats, pairwise_generateAlerts recs topCats, ?_⟩
  simp only [processCsv] at hrep
  split at hrep
  · simp at hrep
  · rw [Except.ok.injEq] at hrep
    subst hrep
    simp only [List.length_append, List.length_map]
    have h1 := length_generateAlerts_le (filterSaidas (prepareDataframe rows))
      (calcTopCategories (filterSaidas (prepareDataframe rows))
        ((List.map (fun r => r.valor) (filterSaidas (prepareDataframe rows))).sum))
    have h2 := List.length_take_le 3
      (analyzeFinancialData a0 a1 a2
        (calcTopCategories (filterSaidas (prepareDataframe rows))
          ((List.map (fun r => r.valor) (filterSaidas (prepareDataframe rows))).sum))
        (generateAlerts (filterSaidas (prepareDataframe rows))
          (calcTopCategories (filterSaidas (prepareDataframe rows))
            ((List.map (fun r => r.valor) (filterSaidas (prepareDataframe rows))).sum)))
        nowMonth).insights_principais
    omega

/-- Claim C1 witness: the cap holds on the COMBUSTÍVEL scenario's engine
output, and the `c1rows` final report stays within 13 alerts. -/
theorem alerts_cap_and_order_witness :
    (generateAlerts c6recs (calcTopCategories c6recs c6total)).length ≤ 10
    ∧ c1rep.alertas.length ≤ 13 :=
  (fun h => ⟨h.1, h.2.2⟩)
    (alerts_cap_and_order c6recs (calcTopCategories c6recs c6total)
      c1rows none none none 1 c1rep (by rfl))

/-- Claim C1 counterexample.  On `c1rows` with all three enrichment attempts
failing, the final report's alert impacts are `[20, 30]`, which is not
descending: the claim as stated about `process_csv` is false. -/
theorem alerts_order_cex :
    (processCsv c1rows none none none 1).toOption.map (fun rep => rep.alertas.map alertKey)
      = some [20, 30]
    ∧ ¬ List.Pairwise (fun a b : Rat => b ≤ a) [(20 : Rat), 30] := by
  constructor
  · decide
  · decide

/-- Claim C2.  If all 3 attempts against the enrichment service fail,
`analyze_financial_data` returns (never raises: the model is a total
function) the locally synthesized fallback, which carries the fallback
marker and all four required list fields, each a (possibly empty) list
within its cap. -/
theorem analyze_all_failures_fallback (topCats : List TopCategory)
    (existingAlerts : List Alert) (nowMonth : Nat) :
    analyzeFinancialData none none none topCats existingAlerts nowMonth
      = getFallbackInsights topCats existingAlerts nowMonth
    ∧ (analyzeFinancialData none none none topCats existingAlerts nowMonth).fallbackMarker = true
    ∧ (analyzeFinancialData none none none topCats existingAlerts nowMonth).insights_principais.length ≤ 3
    ∧ (analyzeFinancialData none none none topCats existingAlerts nowMonth).analise_categorias.length ≤ 3
    ∧ (analyzeFinancialData none none none topCats existingAlerts nowMonth).oportunidades_economia.length = 1
    ∧ (analyzeFinancialData none none none topCats existingAlerts nowMonth).recomendacoes_sazonais.length = 1 := by
  refine ⟨rfl, rfl, ?_, ?_, rfl, rfl⟩
  · simp only [analyzeFinancialData, getFallbackInsights]
    exact le_trans (List.length_filterMap_le _ _)
      (le_trans (List.length_take_le _ _) (le_refl _))
  · simp only [analyzeFinancialData, getFallbackInsights, List.length_map]
    exact List.length_take_le _ _

/-- Claim C3.  On an empty filtered set (`SAÍDA` + `SIM`), `process_csv`
raises the validation `ValueError` and returns no report; on a non-empty
filtered set it returns a full report. -/
theorem processCsv_validation (rows : List RawRow) (a0 a1 a2 : Option RawInsights)
    (nowMonth : Nat) :
    (filterSaidas (prepareDataframe rows) = [] →
       processCsv rows a0 a1 a2 nowMonth
         = .error "Nenhuma transação de saída encontrada no arquivo")
    ∧ (filterSaidas (prepareDataframe rows) ≠ [] →
       ∃ rep : AnalysisResponse, processCsv rows a0 a1 a2 nowMonth = .ok rep) := by
  constructor
  · intro h
    simp [processCsv, h]
  · intro h
    have hne : (filterSaidas (prepareDataframe rows)).isEmpty = false := by
      simpa [List.isEmpty_iff] using h
    simp only [processCsv, hne]
    exact ⟨_, rfl⟩

/-- Claim C3 witness: an INFLOW-only file fails with the validation error;
the two-row COMBUSTÍVEL file yields a report. -/
theorem processCsv_validation_witness :
    processCsv [c3rowEntrada] none none none 1
      = .error "Nenhuma transação de saída encontrada no arquivo"
    ∧ ∃ rep : AnalysisResponse, processCsv c6rows none none none 1 = .ok rep :=
  ⟨(processCsv_validation [c3rowEntrada] none none none 1).1 (by decide),
   (processCsv_validation c6rows none none none 1).2 (by decide)⟩

/-- Claim C4.  Every record surviving `_prepare_dataframe` has a non-negative
amount (absolute value is taken before the `dropna`), and every row whose
amount, date or description failed to parse is dropped entirely. -/
theorem prepare_nonneg_and_drops (rows : List RawRow) :
    (∀ rec ∈ prepareDataframe rows, 0 ≤ rec.valor)
    ∧ (∀ r ∈ rows, (r.valor = none ∨ r.data = none ∨ r.descricao = none) →
        prepareRow r = none) := by
  constructor
  · intro rec hrec
    rcases List.mem_filterMap.mp hrec with ⟨r, _, hr⟩
    obtain ⟨rdesc, rval, rdat, rop, rre⟩ := r
    cases rval <;> cases rdat <;> cases rdesc <;> simp [prepareRow] at hr
    rw [← hr]
    exact abs_nonneg _
  · intro r _ hnone
    obtain ⟨rdesc, rval, rdat, rop, rre⟩ := r
    cases rval <;> cases rdat <;> cases rdesc <;> simp_all [prepareRow]

/-- Claim C4 witness: the `-5` SEMENTE row is kept with amount `5 ≥ 0`; the
row with an unparseable date is dropped. -/
theorem prepare_nonneg_and_drops_witness :
    (0 : Rat) ≤ c4keptRec.valor ∧ prepareRow c4badRow = none :=
  ⟨(prepare_nonneg_and_drops [c4goodRow]).1 c4keptRec (by decide),
   (prepare_nonneg_and_drops [c4badRow]).2 c4badRow (by decide) (Or.inr (Or.inl rfl))⟩

/-- Claim C8 (amended).  The percent-of-total of every reported top category
is the category's (2-decimal-rounded) total divided by the grand total,
times 100, **rounded to 2 decimals** — not the exact ratio: the claim's
"exactly" fails (`topCategory_percent_cex`). -/
theorem topCategory_percent_rounded (recs : List Record) (totalGasto : Rat) :
    ∀ tc ∈ calcTopCategories recs totalGasto,
      tc.percentual = round2 (tc.valor / totalGasto * 100) := by
  intro tc htc
  rcases List.mem_map.mp htc with ⟨s, _, rfl⟩
  rfl

/-- Claim C8 witness: the top category of `c8rows` satisfies the rounded
formula. -/
theorem topCategory_percent_rounded_witness :
    c8catB.percentual = round2 (c8catB.valor / c8total * 100) :=
  topCategory_percent_rounded c8recs c8total c8catB (by decide)

/-- Claim C8 counterexample.  With totals 1 and 2 (grand total 3), category
"A" is reported with `percentual = 33.33`, but `1/3 × 100 = 100/3 ≠ 33.33`:
the percent-of-total field is not the exact ratio. -/
theorem topCategory_percent_cex :
    ((calcTopCategories c8recs c8total).map (fun tc => (tc.nome, tc.valor, tc.percentual)))
      = [("B", (2 : Rat), (6667/100 : Rat)), ("A", (1 : Rat), (3333/100 : Rat))]
    ∧ ((3333 : Rat)/100) ≠ (1 : Rat) / c8total * 100 := by
  constructor
  · decide
  · decide

/-- Claim C9.  `detect_encoding` is total: if the statistical detector
reports confidence above 0.7 its encoding is returned; otherwise the four
candidates are probed in order `utf-8, latin1, iso-8859-1, cp1252` and the
first that decodes the whole buffer is returned, defaulting to `latin1`
when none does.  (The source catches the detector's exceptions and the
probe loop catches decode errors, so no path raises.) -/
theorem detectEncoding_total_spec (ch : Option (String × Rat)) (dec : String → Bool) :
    (∀ e c, ch = some (e, c) → 7/10 < c → detectEncoding ch dec = e)
    ∧ ((∀ e c, ch = some (e, c) → ¬ (7/10 < c)) →
        detectEncoding ch dec = fallbackEncoding dec)
    ∧ (dec "utf-8" = true → fallbackEncoding dec = "utf-8")
    ∧ (dec "utf-8" = false → dec "latin1" = true → fallbackEncoding dec = "latin1")
    ∧ (dec "utf-8" = false → dec "latin1" = false → dec "iso-8859-1" = true →
        fallbackEncoding dec = "iso-8859-1")
    ∧ (dec "utf-8" = false → dec "latin1" = false → dec "iso-8859-1" = false →
        dec "cp1252" = true → fallbackEncoding dec = "cp1252")
    ∧ (dec "utf-8" = false → dec "latin1" = false → dec "iso-8859-1" = false →
        dec "cp1252" = false → fallbackEncoding dec = "latin1") := by
  refine ⟨?_, ?_, ?_, ?_, ?_, ?_, ?_⟩
  · intro e c hc h
    subst hc
    simp [detectEncoding, h]
  · intro h
    cases ch with
    | none => rfl
    | some r =>
        have := h r.1 r.2 rfl
        simp [detectEncoding, this]
  · intro h1
    simp [fallbackEncoding, encodingOptions, List.find?, h1]
  · intro h1 h2
    simp [fallbackEncoding, encodingOptions, List.find?, h1, h2]
  · intro h1 h2 h3
    simp [fallbackEncoding, encodingOptions, List.find?, h1, h2, h3]
  · intro h1 h2 h3 h4
    simp [fallbackEncoding, encodingOptions, List.find?, h1, h2, h3, h4]
  · intro h1 h2 h3 h4
    simp [fallbackEncoding, encodingOptions, List.find?, h1, h2, h3, h4]

/-- Claim C9 witness: a confident detection is returned as-is; with an
undecodable buffer the probe defaults to `latin1`. -/
theorem detectEncoding_total_spec_witness :
    detectEncoding (some ("utf-8", 9/10)) (fun _ => false) = "utf-8"
    ∧ fallbackEncoding (fun _ : String => false) = "latin1" :=
  ⟨(detectEncoding_total_spec (some ("utf-8", 9/10)) (fun _ => false)).1 "utf-8" (9/10)
      rfl (by norm_num),
   (detectEncoding_total_spec none (fun _ : String => false)).2.2.2.2.2.2 rfl rfl rfl rfl⟩

/-! ## Membership lemmas for the three alert passes -/

theorem mem_urgentAlerts {topCats : List TopCategory} {a : Alert}
    (h : a ∈ urgentAlerts topCats) :
    ∃ cat ∈ topCats, ∃ v : Rat, cat.variacao_mensal = some v ∧ 30 < v
      ∧ a = urgentAlertOf cat v := by
  rcases List.mem_filterMap.mp h with ⟨cat, hc, hf⟩
  rcases hv : cat.variacao_mensal with _ | v
  · simp only [hv] at hf
    cases hf
  · simp only [hv] at hf
    by_cases h30 : (30 : Rat) < v
    · rw [if_pos h30] at hf
      rw [Option.some.injEq] at hf
      exact ⟨cat, hc, v, hv, h30, hf.symm⟩
    · rw [if_neg h30] at hf
      cases hf

theorem mem_concentrationAlerts {topCats : List TopCategory} {a : Alert}
    (h : a ∈ concentrationAlerts topCats) :
    ∃ cat ∈ topCats, 25 < cat.percentual ∧ a = concentrationAlertOf cat := by
  rcases List.mem_filterMap.mp h with ⟨cat, hc, hf⟩
  by_cases h25 : (25 : Rat) < cat.percentual
  · rw [if_pos h25] at hf
    rw [Option.some.injEq] at hf
    exact ⟨cat, hc, h25, hf.symm⟩
  · rw [if_neg h25] at hf
    cases hf

theorem outlierAlertFor_eq_some {recs : List Record} {c : String} {a : Alert}
    (h : outlierAlertFor recs c = some a) :
    4 ≤ (catValores recs c).length ∧ outliersOf (catValores recs c) ≠ []
      ∧ a = outlierAlertOf c (outliersOf (catValores recs c)) := by
  simp only [outlierAlertFor] at h
  split at h
  · split at h
    · cases h
    · rw [Option.some.injEq] at h
      refine ⟨by assumption, ?_, h.symm⟩
      simp only [List.isEmpty_iff] at *
      assumption
  · cases h

theorem mem_outlierAlerts {recs : List Record} {a : Alert}
    (h : a ∈ outlierAlerts recs) :
    ∃ c ∈ uniqueInOrder (recs.map (·.descricao)),
      4 ≤ (catValores recs c).length ∧ outliersOf (catValores recs c) ≠ []
        ∧ a = outlierAlertOf c (outliersOf (catValores recs c)) := by
  rcases List.mem_filterMap.mp h with ⟨c, hc, hf⟩
  rcases outlierAlertFor_eq_some hf with ⟨h4, hne, ha⟩
  exact ⟨c, hc, h4, hne, ha⟩

/-- In exact arithmetic the outlier-alert impact
`sum − mean × count` is zero. -/
theorem outlierAlertOf_impacto_zero (c : String) (outliers : List Rat)
    (hne : outliers ≠ []) :
    (outlierAlertOf c outliers).impacto_estimado = some 0 := by
  have hnz : ((outliers.length : Rat)) ≠ 0 := by
    exact_mod_cast Nat.cast_ne_zero.mpr (fun h => hne (List.length_eq_zero.mp h))
  simp only [outlierAlertOf]
  rw [Option.some.injEq, div_mul_cancel₀ _ hnz, sub_self]

theorem outlierAlerts_impacto {recs : List Record} {a : Alert}
    (h : a ∈ outlierAlerts recs) : a.impacto_estimado = some 0 := by
  rcases mem_outlierAlerts h with ⟨c, _, _, hne, ha⟩
  rw [ha]
  exact outlierAlertOf_impacto_zero c _ hne

/-- Counting helper: a `filterMap` over distinct category keys whose
produced alert is tagged with its key yields exactly one alert per
producing key. -/
theorem countP_filterMap_categoria (f : String → Option Alert)
    (hf : ∀ c a, f c = some a → a.categoria = c) :
    ∀ l : List String, l.Nodup → ∀ cat ∈ l, (f cat).isSome →
      ((l.filterMap f).countP (fun a => a.categoria == cat)) = 1 := by
  intro l
  induction l with
  | nil => intro _ cat hcat; cases hcat
  | cons x xs ih =>
    intro hnd cat hcat hsome
    rcases List.nodup_cons.mp hnd with ⟨hx, hnd2⟩
    rcases List.mem_cons.mp hcat with rfl | hcat2
    · rcases Option.isSome_iff_exists.mp hsome with ⟨a, ha⟩
      have hzero : ((xs.filterMap f).countP (fun b => b.categoria == cat)) = 0 := by
        rw [List.countP_eq_zero]
        intro b hb
        rcases List.mem_filterMap.mp hb with ⟨c, hc, hfc⟩
        have hbc := hf c b hfc
        have hne : c ≠ cat := fun e => hx (e ▸ hc)
        simp [hbc, hne]
      rw [List.filterMap_cons, ha, List.countP_cons, hzero, hf cat a ha]
      simp
    · have hne : cat ≠ x := fun e => hx (e ▸ hcat2)
      rw [List.filterMap_cons]
      cases hfx : f x with
      | none => exact ih hnd2 cat hcat2 hsome
      | some a =>
          have hax := hf x a hfx
          rw [List.countP_cons]
          have hbc : (a.categoria == cat) = false := by
            simp only [hax, beq_eq_false_iff_ne, ne_eq]
            exact fun e => hne e.symm
          rw [hbc]
          simpa using ih hnd2 cat hcat2 hsome

/-- Claim C6.  Every top category whose month-over-month variation exceeds
30 gets an URGENT alert with estimated impact `valor × (variation/100)`
emitted for it; and on the concrete COMBUSTÍVEL scenario (−150.00 in
01/2024 and 200.00 in 02/2024) the variation is 33.33 and the engine
publishes exactly one URGENT alert, for COMBUSTÍVEL, with estimated
impact `350 × 0.3333 = 116.655 ≈ 116.67`. -/
theorem urgent_variation_alert (topCats : List TopCategory) (cat : TopCategory) (v : Rat)
    (hmem : cat ∈ topCats) (hv : cat.variacao_mensal = some v) (h30 : 30 < v) :
    urgentAlertOf cat v ∈ urgentAlerts topCats
    ∧ (urgentAlertOf cat v).tipo = .urgent
    ∧ (urgentAlertOf cat v).impacto_estimado = some (cat.valor * (v / 100))
    ∧ (calcTopCategories c6recs c6total).map (fun tc => (tc.nome, tc.variacao_mensal))
        = [("COMBUSTÍVEL", some (3333/100))]
    ∧ ((generateAlerts c6recs (calcTopCategories c6recs c6total)).filter
        (fun a => a.tipo == .urgent)).map (fun a => (a.categoria, a.impacto_estimado))
        = [("COMBUSTÍVEL", some (23331/200))]
    ∧ |(23331 : Rat)/200 - 11667/100| ≤ 2/100 := by
  refine ⟨?_, rfl, rfl, by decide, by decide, by decide⟩
  refine List.mem_filterMap.mpr ⟨cat, hmem, ?_⟩
  rw [hv]
  simp [h30]

/-- Claim C6 witness: the scenario's top category triggers the rule. -/
theorem urgent_variation_alert_witness :
    urgentAlertOf c6cat (3333/100) ∈ urgentAlerts [c6cat] :=
  (urgent_variation_alert [c6cat] c6cat (3333/100) (by decide) rfl (by decide)).1

/-- Claim C7.  For every category of the frame with at least 4
transactions: the outliers are exactly the amounts strictly above
`Q3 + 1.5 (Q3 − Q1)` (quartiles by linear interpolation); when some
exist, exactly one INFO alert is emitted for the category, with estimated
impact `sum − mean × count` over the outliers.  Categories with fewer
than 4 transactions never produce an outlier alert.  On the spec's
reference input `[10, 10, 10, 1000]`: `Q1 = 10`, `Q3 = 257.5`, and 1000
is the single outlier. -/
theorem outlier_rule (recs : List Record) (cat : String)
    (hcat : cat ∈ recs.map (·.descricao)) :
    (4 ≤ (catValores recs cat).length → outliersOf (catValores recs cat) ≠ [] →
        outlierAlertOf cat (outliersOf (catValores recs cat)) ∈ outlierAlerts recs
        ∧ ((outlierAlerts recs).countP (fun a => a.categoria == cat)) = 1)
    ∧ ((catValores recs cat).length < 4 → ∀ a ∈ outlierAlerts recs, a.categoria ≠ cat)
    ∧ outliersOf (catValores recs cat)
        = (catValores recs cat).filter (fun v => decide (upperBound (catValores recs cat) < v))
    ∧ (outlierAlertOf cat (outliersOf (catValores recs cat))).impacto_estimado
        = some ((outliersOf (catValores recs cat)).sum
            - (outliersOf (catValores recs cat)).sum
              / ((outliersOf (catValores recs cat)).length : Rat)
              * ((outliersOf (catValores recs cat)).length : Rat))
    ∧ quantile [10, 10, 10, 1000] (1/4) = 10
    ∧ quantile [10, 10, 10, 1000] (3/4) = 515/2
    ∧ outliersOf [10, 10, 10, 1000] = [1000] := by
  refine ⟨?_, ?_, rfl, rfl, by decide, by decide, by decide⟩
  · intro h4 hne
    have hfor : outlierAlertFor recs cat
        = some (outlierAlertOf cat (outliersOf (catValores recs cat))) := by
      have hemp : (outliersOf (catValores recs cat)).isEmpty = false := by
        simpa [List.isEmpty_iff] using hne
      simp [outlierAlertFor, h4, hemp]
    constructor
    · exact List.mem_filterMap.mpr ⟨cat, mem_uniqueInOrder.mpr hcat, hfor⟩
    · refine countP_filterMap_categoria (outlierAlertFor recs)
        (fun c a h => (outlierAlertFor_eq_some h).2.2 ▸ rfl) _
        (nodup_uniqueInOrder _) cat (mem_uniqueInOrder.mpr hcat) ?_
      rw [hfor]
      rfl
  · intro h4 a ha heq
    rcases List.mem_filterMap.mp ha with ⟨c, _, hfc⟩
    rcases outlierAlertFor_eq_some hfc with ⟨hlen, _, hae⟩
    rw [hae] at heq
    simp only [outlierAlertOf] at heq
    rw [heq] at hlen
    omega

/-- Claim C7 witness: the GADO `[10, 10, 10, 1000]` file emits exactly one
INFO alert for GADO. -/
theorem outlier_rule_witness :
    outlierAlertOf "GADO" (outliersOf (catValores c7recs "GADO")) ∈ outlierAlerts c7recs
    ∧ ((outlierAlerts c7recs).countP (fun a => a.categoria == "GADO")) = 1 :=
  (outlier_rule c7recs "GADO" (by decide)).1 (by decide) (by decide)

/-- Claim C10.  In exact rational arithmetic every outlier alert carries
estimated impact exactly 0 (`sum − mean × count = 0`); in the published
alert list every INFO alert has impact 0, every alert has non-negative
effective impact (given the top categories carry non-negative totals, as
they always do), and the list is sorted descending — so outlier alerts
sort at the bottom. -/
theorem outlier_impact_zero (recs : List Record) (topCats : List TopCategory)
    (hval : ∀ cat ∈ topCats, 0 ≤ cat.valor) :
    (∀ a ∈ outlierAlerts recs, a.impacto_estimado = some 0)
    ∧ (∀ a ∈ generateAlerts recs topCats, a.tipo = .info → a.impacto_estimado = some 0)
    ∧ (∀ a ∈ generateAlerts recs topCats, 0 ≤ alertKey a)
    ∧ (generateAlerts recs topCats).Pairwise (fun a b => alertKey b ≤ alertKey a) := by
  refine ⟨fun a ha => outlierAlerts_impacto ha, ?_, ?_, pairwise_generateAlerts recs topCats⟩
  · intro a ha hinfo
    rcases mem_generateAlerts ha with h | h | h
    · rcases mem_urgentAlerts h with ⟨cat, _, v, _, _, hae⟩
      rw [hae] at hinfo
      cases hinfo
    · rcases mem_concentrationAlerts h with ⟨cat, _, _, hae⟩
      rw [hae] at hinfo
      cases hinfo
    · exact outlierAlerts_impacto h
  · intro a ha
    rcases mem_generateAlerts ha with h | h | h
    · rcases mem_urgentAlerts h with ⟨cat, hcat, v, _, h30, hae⟩
      rw [hae]
      simp only [alertKey, urgentAlertOf, Option.getD_some]
      exact mul_nonneg (hval cat hcat)
        (div_nonneg (le_of_lt (lt_trans (by norm_num) h30)) (by norm_num))
    · rcases mem_concentrationAlerts h with ⟨cat, hcat, _, hae⟩
      rw [hae]
      simp only [alertKey, concentrationAlertOf, Option.getD_some]
      exact mul_nonneg (hval cat hcat) (by norm_num)
    · have := outlierAlerts_impacto h
      simp [alertKey, this]

/-- Claim C10 witness: the GADO outlier alert carries impact exactly 0. -/
theorem outlier_impact_zero_witness :
    (outlierAlertOf "GADO" (outliersOf (catValores c7recs "GADO"))).impacto_estimado
      = some 0 :=
  (outlier_impact_zero c7recs [] (by simp)).1
    (outlierAlertOf "GADO" (outliersOf (catValores c7recs "GADO"))) (by decide)

/-! ## Claim C5: month-over-month variation -/

theorem mem_sortNatAsc {l : List Nat} {a : Nat} : a ∈ sortNatAsc l ↔ a ∈ l :=
  mem_sortBy

theorem nodup_sortNatAsc {l : List Nat} (h : l.Nodup) : (sortNatAsc l).Nodup :=
  ((perm_sortBy _ l).nodup_iff).mpr h

theorem pairwise_sortNatAsc (l : List Nat) :
    (sortNatAsc l).Pairwise (fun a b => a ≤ b) := by
  refine (pairwise_sortBy ?_ ?_ l).imp (fun h => by simpa using h)
  · intro a b c h1 h2
    simp only [decide_eq_true_eq] at h1 h2 ⊢
    omega
  · intro a b
    simp only [decide_eq_true_eq]
    omega

theorem getD_map_of_lt {α β : Type} (f : α → β) (l : List α) (i : Nat)
    (h : i < l.length) (d : β) (d2 : α) :
    (l.map f).getD i d = f (l.getD i d2) := by
  rw [List.getD_eq_getElem?_getD, List.getD_eq_getElem?_getD, List.getElem?_map,
    List.getElem?_eq_getElem h]
  rfl

/-- The last two entries of the sorted distinct month list are the latest
month and the month with greatest key below it. -/
theorem sorted_months_last_two (recs : List Record) (cat : String)
    (h2 : 2 ≤ (sortNatAsc (uniqueInOrder (monthsOf recs cat))).length) :
    (sortNatAsc (uniqueInOrder (monthsOf recs cat))).getD
        ((sortNatAsc (uniqueInOrder (monthsOf recs cat))).length - 1) 0
      = latestMonth recs cat
    ∧ (sortNatAsc (uniqueInOrder (monthsOf recs cat))).getD
        ((sortNatAsc (uniqueInOrder (monthsOf recs cat))).length - 2) 0
      = priorMonth recs cat := by
  set dm := sortNatAsc (uniqueInOrder (monthsOf recs cat)) with hdm
  have hmem : ∀ x : Nat, x ∈ dm ↔ x ∈ monthsOf recs cat := by
    intro x
    rw [hdm]
    exact mem_sortNatAsc.trans mem_uniqueInOrder
  have hsorted : dm.Pairwise (fun a b => a ≤ b) := by
    rw [hdm]
    exact pairwise_sortNatAsc _
  have hnodup : dm.Pairwise (fun a b => a ≠ b) := by
    rw [hdm]
    exact nodup_sortNatAsc (nodup_uniqueInOrder _)
  have h1lt : dm.length - 1 < dm.length := by omega
  have h2lt : dm.length - 2 < dm.length := by omega
  have hij := List.pairwise_iff_getElem.mp hsorted
  have hnd := List.pairwise_iff_getElem.mp hnodup
  have hg1 : dm.getD (dm.length - 1) 0 = dm[dm.length - 1] := by
    rw [List.getD_eq_getElem?_getD, List.getElem?_eq_getElem h1lt]
    rfl
  have hg2 : dm.getD (dm.length - 2) 0 = dm[dm.length - 2] := by
    rw [List.getD_eq_getElem?_getD, List.getElem?_eq_getElem h2lt]
    rfl
  have hub : ∀ x ∈ monthsOf recs cat, x ≤ dm[dm.length - 1] := by
    intro x hx
    rcases List.mem_iff_getElem.mp ((hmem x).mpr hx) with ⟨i, hi, hxi⟩
    subst hxi
    rcases Nat.lt_or_ge i (dm.length - 1) with hlt | hge
    · exact hij i (dm.length - 1) hi h1lt hlt
    · have he : i = dm.length - 1 := by omega
      subst he
      exact Nat.le_refl _
  have hlatest : latestMonth recs cat = dm[dm.length - 1] :=
    foldl_max_eq ((hmem _).mp (List.getElem_mem _)) hub
  have hpne : dm[dm.length - 2] ≠ dm[dm.length - 1] :=
    hnd _ _ h2lt h1lt (by omega)
  have hpmem : dm[dm.length - 2] ∈ (monthsOf recs cat).filter
      (fun m => !(m == latestMonth recs cat)) := by
    rw [List.mem_filter]
    refine ⟨(hmem _).mp (List.getElem_mem _), ?_⟩
    rw [hlatest]
    simpa using hpne
  have hpub : ∀ x ∈ (monthsOf recs cat).filter (fun m => !(m == latestMonth recs cat)),
      x ≤ dm[dm.length - 2] := by
    intro x hx
    rw [List.mem_filter] at hx
    rcases hx with ⟨hx1, hx2⟩
    rcases List.mem_iff_getElem.mp ((hmem x).mpr hx1) with ⟨i, hi, hxi⟩
    subst hxi
    have hine : i ≠ dm.length - 1 := by
      intro e
      subst e
      rw [hlatest] at hx2
      simp at hx2
    rcases Nat.lt_or_ge i (dm.length - 2) with hlt | hge
    · exact hij i (dm.length - 2) hi h2lt hlt
    · have he : i = dm.length - 2 := by omega
      subst he
      exact Nat.le_refl _
  have hprior : priorMonth recs cat = dm[dm.length - 2] :=
    foldl_max_eq hpmem hpub
  constructor
  · rw [hg1, hlatest]
  · rw [hg2, hprior]

/-- Claim C5.  For a top category, the month-over-month variation is
`None` exactly when the category has data in fewer than 2 distinct months
or the prior month's sum is exactly 0; otherwise it equals
`(latest month sum − prior month sum) / prior month sum × 100` rounded to
2 decimals. -/
theorem monthly_variation_spec (recs : List Record) (cat : String) :
    (calcMonthlyVariation recs cat = none ↔
       distinctMonthCount recs cat < 2 ∨ monthSum recs cat (priorMonth recs cat) = 0)
    ∧ ∀ v, calcMonthlyVariation recs cat = some v →
        v = round2 ((monthSum recs cat (latestMonth recs cat)
            - monthSum recs cat (priorMonth recs cat))
          / monthSum recs cat (priorMonth recs cat) * 100) := by
  have hlen : (monthlySums recs cat).length
      = (sortNatAsc (uniqueInOrder (monthsOf recs cat))).length := by
    simp [monthlySums]
  have hcount : distinctMonthCount recs cat
      = (sortNatAsc (uniqueInOrder (monthsOf recs cat))).length := by
    unfold distinctMonthCount
    exact ((perm_sortBy _ _).length_eq).symm
  by_cases hn : (sortNatAsc (uniqueInOrder (monthsOf recs cat))).length < 2
  · have hnone : calcMonthlyVariation recs cat = none := by
      simp only [calcMonthlyVariation]
      rw [if_pos (by rw [hlen]; exact hn)]
    constructor
    · rw [hnone]
      exact ⟨fun _ => Or.inl (by rw [hcount]; exact hn), fun _ => rfl⟩
    · intro v hv
      rw [hnone] at hv
      cases hv
  · have h2 : 2 ≤ (sortNatAsc (uniqueInOrder (monthsOf recs cat))).length := by omega
    obtain ⟨hL, hP⟩ := sorted_months_last_two recs cat h2
    have hmapL : (monthlySums recs cat).getD ((monthlySums recs cat).length - 1) 0
        = monthSum recs cat (latestMonth recs cat) := by
      rw [hlen]
      rw [show monthlySums recs cat
        = (sortNatAsc (uniqueInOrder (monthsOf recs cat))).map (monthSum recs cat) from rfl]
      rw [getD_map_of_lt _ _ _ (by omega) 0 0]
      rw [hL]
    have hmapP : (monthlySums recs cat).getD ((monthlySums recs cat).length - 2) 0
        = monthSum recs cat (priorMonth recs cat) := by
      rw [hlen]
      rw [show monthlySums recs cat
        = (sortNatAsc (uniqueInOrder (monthsOf recs cat))).map (monthSum recs cat) from rfl]
      rw [getD_map_of_lt _ _ _ (by omega) 0 0]
      rw [hP]
    have hcalc : calcMonthlyVariation recs cat
        = if monthSum recs cat (priorMonth recs cat) = 0 then none
          else some (round2 ((monthSum recs cat (latestMonth recs cat)
              - monthSum recs cat (priorMonth recs cat))
            / monthSum recs cat (priorMonth recs cat) * 100)) := by
      simp only [calcMonthlyVariation]
      rw [if_neg (by rw [hlen]; omega)]
      rw [hmapL, hmapP]
    constructor
    · rw [hcalc]
      by_cases hz : monthSum recs cat (priorMonth recs cat) = 0
      · rw [if_pos hz]
        exact ⟨fun _ => Or.inr hz, fun _ => rfl⟩
      · rw [if_neg hz]
        constructor
        · intro h
          cases h
        · intro h
          rcases h with h | h
          · rw [hcount] at h
            omega
          · exact absurd h hz
    · intro v hv
      rw [hcalc] at hv
      by_cases hz : monthSum recs cat (priorMonth recs cat) = 0
      · rw [if_pos hz] at hv
        cases hv
      · rw [if_neg hz] at hv
        rw [Option.some.injEq] at hv
        exact hv.symm

/-- Claim C5 witness: on the COMBUSTÍVEL scenario the computed variation
33.33 equals the spec formula over the latest and prior month sums. -/
theorem monthly_variation_spec_witness :
    (3333/100 : Rat)
      = round2 ((monthSum c6recs "COMBUSTÍVEL" (latestMonth c6recs "COMBUSTÍVEL")
          - monthSum c6recs "COMBUSTÍVEL" (priorMonth c6recs "COMBUSTÍVEL"))
        / monthSum c6recs "COMBUSTÍVEL" (priorMonth c6recs "COMBUSTÍVEL") * 100) :=
  (monthly_variation_spec c6recs "COMBUSTÍVEL").2 (3333/100) (by decide)

end RuralInsights
